import Mathlib

/-!
Shallow embedding of the `MeteoParser` class of `src/db/db.py` (repository
`e-al/no-escape`).

Modelling conventions:
* A text line is a `List Char` without its trailing newline.  Python's file
  iteration keeps the `'\n'`, but every character class used by the two
  regexes (digits, `.` without DOTALL, sign characters, the literals
  `ADD`/`MA1`) rejects `'\n'`, and the patterns never need to consume the
  final character of a longer line, so dropping the trailing newline does not
  change which lines match nor which groups are captured.
* The filesystem is a map from path to optional file content
  (`none` = `open` raises `IOError`).  The CSV reader of
  `parse_meteo_stations` is abstracted at row granularity: a CSV file is a
  list of rows, each row carrying the five column values the code reads.
* Python exceptions are an `Except PyErr` result; `print` output is returned
  as a log (`List String`) alongside the result.
* `datetime.datetime.strptime` is modelled after CPython's `_strptime`:
  `%Y` is exactly four digits, `%m`/`%d`/`%H`/`%M` are ordered regex
  alternations (`1[0-2]|0[1-9]|[1-9]`, `3[01]|[12]\d|0[1-9]|[1-9]`,
  `2[0-3]|[0-1]\d|\d`, `[0-5]\d|\d`), alternatives tried left to right with
  backtracking; after the regex match strptime rejects unconverted trailing
  data, and the `datetime` constructor rejects year 0 and a day that exceeds
  the length of the month.
-/

namespace DbPy

set_option maxRecDepth 16000

abbrev Chars := List Char

/-- Python's regex `.` (no DOTALL): any character except a newline. -/
def isDot (c : Char) : Bool := c != '\n'

/-- One character of the `(\+|\-)` alternation. -/
def isSign (c : Char) : Bool := c == '+' || c == '-'

/-- The substring of `l` starting at position `i`, of (at most) `n` chars. -/
def seg (l : Chars) (i n : Nat) : Chars := (l.drop i).take n

/-- The named groups of the mandatory regex `parse_re_mandatory`
(db.py lines 55-68). -/
structure MandGroups where
  usaf : Chars
  wban : Chars
  date : Chars
  time : Chars
  lat : Chars
  lon : Chars
  elev : Chars
  airPres : Chars
deriving DecidableEq, Repr

/-- A sign character followed by digits, as in `(\+|\-)[0-9]{n}`. -/
def signedGroup (s : Chars) : Bool :=
  match s with
  | c :: rest => isSign c && rest.all Char.isDigit
  | [] => false

/-- Whether `parse_re_mandatory` matches at position 0.  The pattern is a
concatenation of fixed-width pieces (widths 4,6,5,8,4,1,6,7,5,5,49,5 =
total 105), so matching is equivalent to per-position class checks; the
`105 ≤ l.length` guard makes every segment below full width. -/
def mandatoryOk (l : Chars) : Bool :=
  decide (105 ≤ l.length) &&
  (seg l 0 4).all Char.isDigit &&      -- (?P<len>[0-9]{4})
  (seg l 4 6).all isDot &&             -- (?P<usaf_id>.{6})
  (seg l 10 5).all Char.isDigit &&     -- (?P<wban_id>[0-9]{5})
  (seg l 15 8).all Char.isDigit &&     -- (?P<date>[0-9]{8})
  (seg l 23 4).all Char.isDigit &&     -- (?P<time>[0-9]{4})
  (seg l 27 1).all isDot &&            -- (?:.) data source flag
  signedGroup (seg l 28 6) &&          -- (?P<lat>(\+|\-)[0-9]{5})
  signedGroup (seg l 34 7) &&          -- (?P<lon>(\+|\-)[0-9]{6})
  (seg l 41 5).all isDot &&            -- (?:.{5})
  signedGroup (seg l 46 5) &&          -- (?P<elev>(\+|\-)[0-9]{4})
  (seg l 51 49).all isDot &&           -- (?:.{49})
  (seg l 100 5).all Char.isDigit       -- (?P<air_pres>[0-9]{5})

/-- `parse_re_mandatory.match(line)`: the groups when the mandatory pattern
matches at the start of the line. -/
def mandatoryMatch (l : Chars) : Option MandGroups :=
  if mandatoryOk l then
    some ⟨seg l 4 6, seg l 10 5, seg l 15 8, seg l 23 4,
          seg l 28 6, seg l 34 7, seg l 46 5, seg l 100 5⟩
  else none

/-- The fixed tail of `parse_re_add` at position `j`: literal `MA1`, six
`.`-class characters, then the five-digit `air_pres` group (returned). -/
def addTail (l : Chars) (j : Nat) : Option Chars :=
  if seg l j 3 = ['M', 'A', '1']
     ∧ (seg l (j + 3) 6).all isDot = true ∧ (seg l (j + 3) 6).length = 6
     ∧ (seg l (j + 9) 5).all Char.isDigit = true ∧ (seg l (j + 9) 5).length = 5
  then some (seg l (j + 9) 5) else none

/-- One greedy candidate for the end of `(.*)?` in `parse_re_add`: the gap
from `i3` (the position right after `ADD`) up to `j` must be `.`-class, and
the fixed tail must match at `j`. -/
def tryJ (l : Chars) (i3 j : Nat) : Option Chars :=
  if decide (i3 ≤ j) && (seg l i3 (j - i3)).all isDot then addTail l j else none

/-- Greedy `(.*)?`: try the largest end position `j` first, backtracking
downwards — exactly the order a backtracking regex engine explores the
candidates of a greedy star. -/
def greedy (l : Chars) (i3 : Nat) : Nat → Option Chars
  | 0 => tryJ l i3 0
  | Nat.succ j =>
    match tryJ l i3 (j + 1) with
    | some p => some p
    | none => greedy l i3 j

/-- An attempt to match `parse_re_add` starting at position `i`: the literal
`ADD`, then the greedy `(.*)?`, then `MA1.{6}[0-9]{5}`. -/
def addAt (l : Chars) (i : Nat) : Option Chars :=
  if seg l i 3 = ['A', 'D', 'D'] then greedy l (i + 3) l.length else none

/-- Helper for `addSearch`: try successive start positions (leftmost match
semantics of `re.search`), `fuel` bounding the scan. -/
def searchFrom (l : Chars) : Nat → Nat → Option Chars
  | 0, _ => none
  | Nat.succ fuel, i =>
    match addAt l i with
    | some p => some p
    | none => searchFrom l fuel (i + 1)

/-- `parse_re_add.search(line)` (db.py lines 70-74): the `air_pres` group of
the leftmost match of `ADD(.*)?MA1.{6}[0-9]{5}`. -/
def addSearch (l : Chars) : Option Chars := searchFrom l (l.length + 1) 0

/-! ### The strptime model -/

def digitVal (c : Char) : Nat := c.toNat - 48

/-- A numeric field alternative: consumes a prefix, yields value and rest. -/
abbrev NumAlt := Chars → Option (Nat × Chars)

/-- A two-character alternative `[lo1-hi1][lo2-hi2]`. -/
def twoDigitAlt (lo1 hi1 lo2 hi2 : Char) : NumAlt := fun s =>
  match s with
  | a :: b :: rest =>
    if decide (lo1 ≤ a) && decide (a ≤ hi1) && decide (lo2 ≤ b) && decide (b ≤ hi2) then
      some (10 * digitVal a + digitVal b, rest)
    else none
  | _ => none

/-- A one-character alternative `[lo-hi]`. -/
def oneDigitAlt (lo hi : Char) : NumAlt := fun s =>
  match s with
  | a :: rest => if decide (lo ≤ a) && decide (a ≤ hi) then some (digitVal a, rest) else none
  | [] => none

/-- `%m` = `1[0-2]|0[1-9]|[1-9]`. -/
def monthAlts : List NumAlt :=
  [twoDigitAlt '1' '1' '0' '2', twoDigitAlt '0' '0' '1' '9', oneDigitAlt '1' '9']

/-- `%d` = `3[01]|[12]\d|0[1-9]|[1-9]`. -/
def dayAlts : List NumAlt :=
  [twoDigitAlt '3' '3' '0' '1', twoDigitAlt '1' '2' '0' '9',
   twoDigitAlt '0' '0' '1' '9', oneDigitAlt '1' '9']

/-- `%H` = `2[0-3]|[0-1]\d|\d`. -/
def hourAlts : List NumAlt :=
  [twoDigitAlt '2' '2' '0' '3', twoDigitAlt '0' '1' '0' '9', oneDigitAlt '0' '9']

/-- `%M` = `[0-5]\d|\d`. -/
def minuteAlts : List NumAlt :=
  [twoDigitAlt '0' '5' '0' '9', oneDigitAlt '0' '9']

/-- Ordered alternation with backtracking into the continuation `k`:
alternatives are tried left to right, and a later field failing sends the
engine back to the next alternative — the search order of a backtracking
regex engine on independent alternations. -/
def matchField (alts : List NumAlt) (s : Chars) (k : Nat → Chars → Option α) : Option α :=
  alts.findSome? (fun alt => (alt s).bind (fun p => k p.1 p.2))

/-- `%Y` = `\d\d\d\d` (exactly four digits in CPython's `_strptime`). -/
def matchYear (s : Chars) (k : Nat → Chars → Option α) : Option α :=
  match s with
  | a :: b :: c :: d :: rest =>
    if a.isDigit && b.isDigit && c.isDigit && d.isDigit then
      k (1000 * digitVal a + 100 * digitVal b + 10 * digitVal c + digitVal d) rest
    else none
  | _ => none

/-- A `datetime.datetime` value, at the minute precision the code uses. -/
structure PyDateTime where
  year : Nat
  month : Nat
  day : Nat
  hour : Nat
  minute : Nat
deriving DecidableEq, Repr

/-- The regex phase of `strptime(s, "%Y%m%d%H%M")`: the first full-pattern
match in alternative-priority order, with the unconsumed rest. -/
def formatRegexYmdHM (s : Chars) : Option (PyDateTime × Chars) :=
  matchYear s (fun y r1 =>
    matchField monthAlts r1 (fun m r2 =>
      matchField dayAlts r2 (fun d r3 =>
        matchField hourAlts r3 (fun h r4 =>
          matchField minuteAlts r4 (fun mi r5 => some (⟨y, m, d, h, mi⟩, r5))))))

def isLeap (y : Nat) : Bool := (y % 4 == 0 && y % 100 != 0) || y % 400 == 0

def daysInMonth (y m : Nat) : Nat :=
  if m == 2 then (if isLeap y then 29 else 28)
  else if m == 4 || m == 6 || m == 9 || m == 11 then 30 else 31

/-- `datetime.datetime.strptime(s, "%Y%m%d%H%M")`; `none` is a raised
`ValueError` (no regex match, unconverted trailing data, or a value the
`datetime` constructor rejects). -/
def strptimeYmdHM (s : Chars) : Option PyDateTime :=
  match formatRegexYmdHM s with
  | none => none
  | some (dt, rest) =>
    if rest = [] ∧ 1 ≤ dt.year ∧ dt.day ≤ daysInMonth dt.year dt.month then some dt
    else none

/-- The regex phase of `strptime(s, "%Y%m%d")` (hour/minute default to 0). -/
def formatRegexYmd (s : Chars) : Option (PyDateTime × Chars) :=
  matchYear s (fun y r1 =>
    matchField monthAlts r1 (fun m r2 =>
      matchField dayAlts r2 (fun d r3 => some (⟨y, m, d, 0, 0⟩, r3))))

/-- `datetime.datetime.strptime(s, "%Y%m%d")`; `none` is a raised
`ValueError`. -/
def strptimeYmd (s : Chars) : Option PyDateTime :=
  match formatRegexYmd s with
  | none => none
  | some (dt, rest) =>
    if rest = [] ∧ 1 ≤ dt.year ∧ dt.day ≤ daysInMonth dt.year dt.month then some dt
    else none

/-- `datetime` comparison `a < b`: lexicographic on the components. -/
def dtLt (a b : PyDateTime) : Bool :=
  decide (a.year < b.year) || (a.year == b.year &&
    (decide (a.month < b.month) || (a.month == b.month &&
      (decide (a.day < b.day) || (a.day == b.day &&
        (decide (a.hour < b.hour) || (a.hour == b.hour &&
          decide (a.minute < b.minute))))))))

/-! ### Data model and the parser operations -/

/-- `MeteoStation` as `parse_file` builds it: all four fields keep the raw
matched substrings (db.py line 126: `MeteoStation(id, long, lat, elevation)`,
whose constructor order is `id, longitude, latitude, elevation`). -/
structure MeteoStation where
  id : Chars
  longitude : Chars
  latitude : Chars
  elevation : Chars
deriving DecidableEq, Repr

/-- `MeteoReading(station, dt, pressure)`. -/
structure MeteoReading where
  station : MeteoStation
  dateTime : PyDateTime
  pressure : Chars
deriving DecidableEq, Repr

/-- The Python exceptions the modelled code can raise. -/
inductive PyErr
  | valueError
  | typeError
  | indexError
deriving DecidableEq, Repr

def missingSentinel : Chars := ['9', '9', '9', '9', '9']

/-- The pressure of a reading (db.py lines 118-122): the supplemental
`ADD` search runs on the whole line, and its value replaces the mandatory
pressure only when it differs from the `"99999"` sentinel. -/
def chosenPressure (line : Chars) (g : MandGroups) : Chars :=
  match addSearch line with
  | some newP => if newP ≠ missingSentinel then newP else g.airPres
  | none => g.airPres

/-- The body of `parse_file`'s per-line loop (db.py lines 104-127):
`none` = `continue` (no mandatory match), `some (error _)` = `strptime`
raised, `some (ok r)` = a reading was appended.  (The source computes the
supplemental override before calling `strptime`; both steps are pure, so the
order is immaterial.) -/
def lineStep (line : Chars) : Option (Except PyErr MeteoReading) :=
  match mandatoryMatch line with
  | none => none
  | some g =>
    match strptimeYmdHM (g.date ++ g.time) with
    | none => some (Except.error PyErr.valueError)
    | some dt =>
      some (Except.ok ⟨⟨g.usaf, g.lon, g.lat, g.elev⟩, dt, chosenPressure line g⟩)

/-- The `for line in f` loop of `parse_file`: readings accumulate in file
order; a raised `ValueError` propagates (the `except` clause only catches
`IOError`) and the partially built list is lost. -/
def processLines : List Chars → Except PyErr (List MeteoReading)
  | [] => Except.ok []
  | line :: rest =>
    match lineStep line with
    | none => processLines rest
    | some (Except.error e) => Except.error e
    | some (Except.ok r) => (processLines rest).map (fun rs => r :: rs)

/-- A filesystem for observation files: path to lines, `none` = `IOError`. -/
abbrev FileSys := String → Option (List Chars)

/-- `MeteoParser.parse_file` (db.py lines 95-133).  The first component is
the `print` log.  An empty filename returns `[]` before any `open`; a failed
`open` prints and returns `[]`; a `ValueError` from `strptime` propagates. -/
def parse_file (fsys : FileSys) (filename : String) :
    List String × Except PyErr (List MeteoReading) :=
  if filename = "" then ([], Except.ok [])
  else
    match fsys filename with
    | none => (["Cannot open file " ++ filename], Except.ok [])
    | some lines => ([], processLines lines)

/-- `parse_file` as called with a dynamically typed argument.  `parse_files`
(db.py line 89) passes its whole `filenames` list where a path string is
expected: a non-empty list is truthy, so the `if not filename` guard is
passed and `open(<list>)` raises `TypeError`, which the `except IOError`
clause does not catch; an empty list is falsy and returns `[]`. -/
def parse_file_dyn (fsys : FileSys) (arg : String ⊕ List String) :
    List String × Except PyErr (List MeteoReading) :=
  match arg with
  | Sum.inl s => parse_file fsys s
  | Sum.inr l => if l = [] then ([], Except.ok []) else ([], Except.error PyErr.typeError)

/-- `MeteoParser.parse_files` (db.py lines 85-93).  The loop body calls
`self.parse_file(filenames)` — the whole list, not the loop variable — so for
a non-empty list the first iteration raises.  Had `parse_file` returned a
list `readings`, the next line `len(readings[1])` would raise `IndexError`
(fewer than two readings) or `TypeError` (`len()` of a `MeteoReading`), so
the loop always aborts on its first iteration and the dict entry
`result[readings[0]] = readings[1]` (which would hold `MeteoReading` keys and
values, per `parse_file`'s actual return type) is never written.  Only the
empty-list case returns normally, with the empty dict. -/
def parse_files (fsys : FileSys) (filenames : List String) :
    List String × Except PyErr (List (MeteoReading × MeteoReading)) :=
  match filenames with
  | [] => ([], Except.ok [])
  | _ :: _ =>
    let r := parse_file_dyn fsys (Sum.inr filenames)
    match r.2 with
    | Except.error e => (r.1, Except.error e)
    | Except.ok [] => (r.1, Except.error PyErr.indexError)
    | Except.ok [_] => (r.1, Except.error PyErr.indexError)
    | Except.ok (_ :: _ :: _) => (r.1, Except.error PyErr.typeError)

/-- One row of the ISD history CSV, restricted to the five columns
`parse_meteo_stations` reads (`USAF`, `LAT`, `LON`, `ELEV(M)`, `END`). -/
structure CsvRow where
  usaf : Chars
  lat : Chars
  lon : Chars
  elev : Chars
  endD : Chars
deriving DecidableEq, Repr

/-- A filesystem for CSV history files, abstracted at row granularity. -/
abbrev CsvSys := String → Option (List CsvRow)

/-- The `for row in station_reader` loop of `parse_meteo_stations`
(db.py lines 152-166): parse `END` (a `ValueError` propagates), skip rows
ending before the cutoff, skip rows with an empty required field, otherwise
append `MeteoStation(usaf_id, lon, lat, elev)`. -/
def stationsLoop (cutoff : PyDateTime) : List CsvRow → Except PyErr (List MeteoStation)
  | [] => Except.ok []
  | row :: rest =>
    match strptimeYmd row.endD with
    | none => Except.error PyErr.valueError
    | some dt =>
      if dtLt dt cutoff then stationsLoop cutoff rest
      else if row.lat = [] ∨ row.lon = [] ∨ row.elev = [] ∨ row.usaf = [] then
        stationsLoop cutoff rest
      else (stationsLoop cutoff rest).map
        (fun ss => (⟨row.usaf, row.lon, row.lat, row.elev⟩ : MeteoStation) :: ss)

/-- `MeteoParser.parse_meteo_stations` (db.py lines 135-171). -/
def parse_meteo_stations (csys : CsvSys) (filename : String) (cutoff : PyDateTime) :
    List String × Except PyErr (List MeteoStation) :=
  if filename = "" then ([], Except.ok [])
  else
    match csys filename with
    | none => (["Cannot open file " ++ filename], Except.ok [])
    | some rows => ([], stationsLoop cutoff rows)

/-! ### Specification-side characterizations -/

/-- The reading a line contributes when `parse_file` succeeds. -/
def lineReading (line : Chars) : Option MeteoReading :=
  match lineStep line with
  | some (Except.ok r) => some r
  | _ => none

/-- Per-row station selection, the specification-side restatement of the
loop body of `parse_meteo_stations`. -/
def rowStation (cutoff : PyDateTime) (row : CsvRow) : Option MeteoStation :=
  match strptimeYmd row.endD with
  | none => none
  | some dt =>
    if dtLt dt cutoff then none
    else if row.lat = [] ∨ row.lon = [] ∨ row.elev = [] ∨ row.usaf = [] then none
    else some ⟨row.usaf, row.lon, row.lat, row.elev⟩

/-! ### Concrete test inputs -/

/-- Builds a 105-character observation line from field values (widths
4+6+5+8+4+1+6+7+5+5+49+5), with `'X'`/`'B'` filler in the ignored
positions, followed by an arbitrary tail. -/
def mkLine (usaf wban date time lat lon elev pres tail : String) : Chars :=
  ("0105" ++ usaf ++ wban ++ date ++ time ++ "X" ++ lat ++ lon ++ "BBBBB" ++ elev).toList
  ++ List.replicate 49 'B' ++ pres.toList ++ tail.toList

/-- The round-trip line of the spec's testable properties. -/
def lineC7 : Chars :=
  mkLine "123456" "99999" "20161201" "1200" "+40000" "-075000" "+0010" "10150" ""

/-- A line whose USAF id `ADDZMA` together with a WBAN id starting in `'1'`
forms `ADD` at position 4 and `MA1` at position 8, so the supplemental
search matches inside the mandatory prefix. -/
def lineW1 : Chars :=
  mkLine "ADDZMA" "19999" "20161201" "1200" "+40000" "-075000" "+0010" "10150" ""

/-- `lineW1` with the first WBAN digit changed to `'2'`, which destroys the
`MA1` marker. -/
def lineW2 : Chars :=
  mkLine "ADDZMA" "29999" "20161201" "1200" "+40000" "-075000" "+0010" "10150" ""

/-- A line with two complete supplemental sections: `MA1...11111` first,
`MA1...22222` second. -/
def lineTwoMA1 : Chars :=
  mkLine "123456" "99999" "20161201" "1200" "+40000" "-075000" "+0010" "10150"
    "ADDXXMA1CCCCCC11111MA1DDDDDD22222"

/-- A line whose date field has month 13. -/
def lineBadDate : Chars :=
  mkLine "123456" "99999" "20161301" "1200" "+40000" "-075000" "+0010" "10150" ""

/-- Mandatory pressure is the sentinel, supplemental pressure is `10132`. -/
def lineAdd1 : Chars :=
  mkLine "123456" "99999" "20161201" "1200" "+40000" "-075000" "+0010" "99999"
    "ADDXXMA1CCCCCC10132"

/-- Mandatory pressure `10150`, supplemental pressure is the sentinel. -/
def lineAdd2 : Chars :=
  mkLine "123456" "99999" "20161201" "1200" "+40000" "-075000" "+0010" "10150"
    "ADDXXMA1CCCCCC99999"

/-- `lineC7` with WBAN id `12345`. -/
def lwA : Chars :=
  mkLine "123456" "12345" "20161201" "1200" "+40000" "-075000" "+0010" "10150" ""

/-- `lineC7` with WBAN id `54321`. -/
def lwB : Chars :=
  mkLine "123456" "54321" "20161201" "1200" "+40000" "-075000" "+0010" "10150" ""

/-- A line far shorter than the 105-character mandatory width. -/
def shortLine : Chars := "0105".toList

/-- A 105-character line that does not match the mandatory grammar. -/
def lineNoMatch : Chars := List.replicate 105 'Z'

def dtNoon : PyDateTime := ⟨2016, 12, 1, 12, 0⟩

def stNorm : MeteoStation :=
  ⟨"123456".toList, "-075000".toList, "+40000".toList, "+0010".toList⟩

def readingC7 : MeteoReading := ⟨stNorm, dtNoon, "10150".toList⟩

/-- The mandatory groups of `lineAdd1`. -/
def gAdd1 : MandGroups :=
  ⟨"123456".toList, "99999".toList, "20161201".toList, "1200".toList,
   "+40000".toList, "-075000".toList, "+0010".toList, "99999".toList⟩

/-- The mandatory groups of `lineAdd2`. -/
def gAdd2 : MandGroups :=
  ⟨"123456".toList, "99999".toList, "20161201".toList, "1200".toList,
   "+40000".toList, "-075000".toList, "+0010".toList, "10150".toList⟩

/-- The mandatory groups of `lwA`. -/
def gwA : MandGroups :=
  ⟨"123456".toList, "12345".toList, "20161201".toList, "1200".toList,
   "+40000".toList, "-075000".toList, "+0010".toList, "10150".toList⟩

/-- The mandatory groups of `lwB`. -/
def gwB : MandGroups :=
  ⟨"123456".toList, "54321".toList, "20161201".toList, "1200".toList,
   "+40000".toList, "-075000".toList, "+0010".toList, "10150".toList⟩

/-- The mandatory groups of `lineBadDate`. -/
def gBad : MandGroups :=
  ⟨"123456".toList, "99999".toList, "20161301".toList, "1200".toList,
   "+40000".toList, "-075000".toList, "+0010".toList, "10150".toList⟩

/-- The mandatory groups of `lineC7`. -/
def gC7 : MandGroups :=
  ⟨"123456".toList, "99999".toList, "20161201".toList, "1200".toList,
   "+40000".toList, "-075000".toList, "+0010".toList, "10150".toList⟩

/-- A filesystem holding one well-formed observation file. -/
def fsEx : FileSys := fun p => if p = "fileA" then some [lineC7] else none

/-- A filesystem holding the round-trip observation file. -/
def fsC7 : FileSys := fun p => if p = "obs" then some [lineC7] else none

/-- A filesystem that would serve content even for the empty path. -/
def fsEmptyMapped : FileSys := fun _ => some [lineC7]

/-- A filesystem holding one file with a month-13 line. -/
def fsBad : FileSys := fun p => if p = "bad" then some [lineBadDate] else none

/-- A filesystem on which every `open` fails. -/
def fsNone : FileSys := fun _ => none

def lines5 : List Chars := [shortLine, lineC7, lineNoMatch]

/-- A filesystem holding a mixed file: a short line, a matching line, and a
long non-matching line. -/
def fs5 : FileSys := fun p => if p = "w5" then some lines5 else none

/-- A CSV filesystem on which every `open` fails. -/
def csvNone : CsvSys := fun _ => none

def dtCut : PyDateTime := ⟨2016, 12, 1, 0, 0⟩

/-- END `20161130`: precedes the cutoff `2016-12-01`. -/
def rowBefore : CsvRow :=
  ⟨"720001".toList, "+40.0".toList, "-075.0".toList, "+0010".toList, "20161130".toList⟩

/-- END `20161201`: equals the cutoff date. -/
def rowAtCut : CsvRow :=
  ⟨"720002".toList, "+41.0".toList, "-076.0".toList, "+0020".toList, "20161201".toList⟩

/-- Empty LAT, END well after the cutoff. -/
def rowNoLat : CsvRow :=
  ⟨"720003".toList, "".toList, "-077.0".toList, "+0030".toList, "20170101".toList⟩

def rows6 : List CsvRow := [rowBefore, rowAtCut, rowNoLat]

/-- A CSV filesystem holding the three-row history file. -/
def csv6 : CsvSys := fun p => if p = "hist" then some rows6 else none

/-- A row whose END field is not a `YYYYMMDD` date. -/
def rowBadEnd : CsvRow :=
  ⟨"720004".toList, "+42.0".toList, "-078.0".toList, "+0040".toList, "NOPE".toList⟩

/-- A CSV filesystem holding a good row followed by a bad-END row. -/
def csv9 : CsvSys := fun p => if p = "hist9" then some [rowAtCut, rowBadEnd] else none

/-- A CSV filesystem that would serve rows even for the empty path. -/
def csvEmptyMapped : CsvSys := fun _ => some rows6

/-- The station built from `rowAtCut`. -/
def stAtCut : MeteoStation :=
  ⟨"720002".toList, "-076.0".toList, "+41.0".toList, "+0020".toList⟩

/-! ### Helper lemmas -/

theorem mandatoryMatch_of_short (l : Chars) (h : l.length < 105) :
    mandatoryMatch l = none := by
  unfold mandatoryMatch mandatoryOk
  have hd : decide (105 ≤ l.length) = false := by
    simp only [decide_eq_false_iff_not]
    omega
  rw [hd]
  simp

theorem mandatoryMatch_groups (l : Chars) (g : MandGroups)
    (h : mandatoryMatch l = some g) :
    g = ⟨seg l 4 6, seg l 10 5, seg l 15 8, seg l 23 4,
         seg l 28 6, seg l 34 7, seg l 46 5, seg l 100 5⟩ := by
  unfold mandatoryMatch at h
  split at h
  · exact (Option.some_inj.mp h).symm
  · cases h

theorem lineStep_eq_none (l : Chars) (hm : mandatoryMatch l = none) :
    lineStep l = none := by
  unfold lineStep
  rw [hm]

theorem lineStep_eq_error (l : Chars) (g : MandGroups) (hm : mandatoryMatch l = some g)
    (hdt : strptimeYmdHM (g.date ++ g.time) = none) :
    lineStep l = some (Except.error PyErr.valueError) := by
  unfold lineStep
  simp only [hm, hdt]

theorem lineStep_eq_ok (l : Chars) (g : MandGroups) (dt : PyDateTime)
    (hm : mandatoryMatch l = some g) (hdt : strptimeYmdHM (g.date ++ g.time) = some dt) :
    lineStep l = some (Except.ok ⟨⟨g.usaf, g.lon, g.lat, g.elev⟩, dt, chosenPressure l g⟩) := by
  unfold lineStep
  simp only [hm, hdt]

theorem processLines_cons (line : Chars) (rest : List Chars) :
    processLines (line :: rest) =
      match lineStep line with
      | none => processLines rest
      | some (Except.error e) => Except.error e
      | some (Except.ok r) => (processLines rest).map (fun rs => r :: rs) := rfl

theorem stationsLoop_cons (cutoff : PyDateTime) (row : CsvRow) (rest : List CsvRow) :
    stationsLoop cutoff (row :: rest) =
      match strptimeYmd row.endD with
      | none => Except.error PyErr.valueError
      | some dt =>
        if dtLt dt cutoff then stationsLoop cutoff rest
        else if row.lat = [] ∨ row.lon = [] ∨ row.elev = [] ∨ row.usaf = [] then
          stationsLoop cutoff rest
        else (stationsLoop cutoff rest).map
          (fun ss => (⟨row.usaf, row.lon, row.lat, row.elev⟩ : MeteoStation) :: ss) := rfl

theorem lineStep_error_val (l : Chars) (e : PyErr)
    (h : lineStep l = some (Except.error e)) : e = PyErr.valueError := by
  cases hm : mandatoryMatch l with
  | none => rw [lineStep_eq_none l hm] at h; cases h
  | some g =>
    cases hdt : strptimeYmdHM (g.date ++ g.time) with
    | none =>
      rw [lineStep_eq_error l g hm hdt] at h
      cases h
      rfl
    | some dt => rw [lineStep_eq_ok l g dt hm hdt] at h; cases h

theorem lineReading_none_of_no_match (l : Chars) (h : mandatoryMatch l = none) :
    lineReading l = none := by
  unfold lineReading
  rw [lineStep_eq_none l h]

theorem lineStep_no_error (l : Chars)
    (hok : ∀ g, mandatoryMatch l = some g →
      (strptimeYmdHM (g.date ++ g.time)).isSome = true) :
    ∀ e, lineStep l ≠ some (Except.error e) := by
  intro e h
  cases hm : mandatoryMatch l with
  | none => rw [lineStep_eq_none l hm] at h; cases h
  | some g =>
    cases hdt : strptimeYmdHM (g.date ++ g.time) with
    | none =>
      have := hok g hm
      rw [hdt] at this
      cases this
    | some dt => rw [lineStep_eq_ok l g dt hm hdt] at h; cases h

theorem lineReading_isSome (l : Chars)
    (hok : ∀ g, mandatoryMatch l = some g →
      (strptimeYmdHM (g.date ++ g.time)).isSome = true) :
    (lineReading l).isSome = (mandatoryMatch l).isSome := by
  unfold lineReading
  cases hm : mandatoryMatch l with
  | none =>
    rw [lineStep_eq_none l hm]
    rfl
  | some g =>
    cases hdt : strptimeYmdHM (g.date ++ g.time) with
    | none =>
      have := hok g hm
      rw [hdt] at this
      cases this
    | some dt =>
      rw [lineStep_eq_ok l g dt hm hdt]
      rfl

theorem processLines_of_no_error (lines : List Chars)
    (h : ∀ l ∈ lines, ∀ e, lineStep l ≠ some (Except.error e)) :
    processLines lines = Except.ok (lines.filterMap lineReading) := by
  induction lines with
  | nil => rfl
  | cons line rest ih =>
    have hrest := ih (fun l hl => h l (List.mem_cons_of_mem _ hl))
    have hline := h line (List.mem_cons_self _ _)
    rw [List.filterMap_cons, processLines_cons]
    unfold lineReading
    cases hs : lineStep line with
    | none => exact hrest
    | some res =>
      cases res with
      | error e => exact absurd hs (hline e)
      | ok r => rw [hrest]; rfl

theorem processLines_error (lines : List Chars)
    (h : ∃ l ∈ lines, ∃ e, lineStep l = some (Except.error e)) :
    processLines lines = Except.error PyErr.valueError := by
  induction lines with
  | nil => exact absurd h (by simp)
  | cons line rest ih =>
    obtain ⟨l, hmem, e, hstep⟩ := h
    rw [processLines_cons]
    cases hs : lineStep line with
    | none =>
      apply ih
      rcases List.mem_cons.mp hmem with h1 | h1
      · subst h1; rw [hs] at hstep; cases hstep
      · exact ⟨l, h1, e, hstep⟩
    | some res =>
      cases res with
      | error e2 => rw [lineStep_error_val line e2 hs]
      | ok r =>
        have hr : processLines rest = Except.error PyErr.valueError := by
          apply ih
          rcases List.mem_cons.mp hmem with h1 | h1
          · subst h1; rw [hs] at hstep; cases hstep
          · exact ⟨l, h1, e, hstep⟩
        rw [hr]; rfl

theorem stationsLoop_of_all_parse (cutoff : PyDateTime) (rows : List CsvRow)
    (h : ∀ row ∈ rows, (strptimeYmd row.endD).isSome = true) :
    stationsLoop cutoff rows = Except.ok (rows.filterMap (rowStation cutoff)) := by
  induction rows with
  | nil => rfl
  | cons row rest ih =>
    have hrest := ih (fun r hr => h r (List.mem_cons_of_mem _ hr))
    have hrow := h row (List.mem_cons_self _ _)
    rw [List.filterMap_cons, stationsLoop_cons]
    unfold rowStation
    cases hdt : strptimeYmd row.endD with
    | none => rw [hdt] at hrow; cases hrow
    | some dt =>
      cases hlt : dtLt dt cutoff with
      | true => simp only [hlt, if_true]; exact hrest
      | false =>
        simp only [hlt, Bool.false_eq_true, if_false]
        by_cases hemp : row.lat = [] ∨ row.lon = [] ∨ row.elev = [] ∨ row.usaf = []
        · simp only [if_pos hemp]; exact hrest
        · simp only [if_neg hemp]; rw [hrest]; rfl

theorem stationsLoop_error (cutoff : PyDateTime) (rows : List CsvRow)
    (h : ∃ row ∈ rows, strptimeYmd row.endD = none) :
    stationsLoop cutoff rows = Except.error PyErr.valueError := by
  induction rows with
  | nil => exact absurd h (by simp)
  | cons row rest ih =>
    obtain ⟨r, hmem, hbad⟩ := h
    rw [stationsLoop_cons]
    cases hdt : strptimeYmd row.endD with
    | none => rfl
    | some dt =>
      have hr : stationsLoop cutoff rest = Except.error PyErr.valueError := by
        apply ih
        rcases List.mem_cons.mp hmem with h1 | h1
        · subst h1; rw [hdt] at hbad; cases hbad
        · exact ⟨r, h1, hbad⟩
      cases hlt : dtLt dt cutoff with
      | true => simp only [hlt, if_true]; exact hr
      | false =>
        simp only [hlt, Bool.false_eq_true, if_false]
        by_cases hemp : row.lat = [] ∨ row.lon = [] ∨ row.elev = [] ∨ row.usaf = []
        · simp only [if_pos hemp]; exact hr
        · simp only [if_neg hemp]; rw [hr]; rfl

theorem seg_eq_of_take10 (la lb : Chars) (i n : Nat)
    (h : la.take 10 = lb.take 10) (hn : i + n ≤ 10) :
    seg la i n = seg lb i n := by
  have key : ∀ l : Chars, seg l i n = ((l.take 10).drop i).take n := by
    intro l
    unfold seg
    rw [List.drop_take, List.take_take]
    congr 1
    omega
  rw [key la, key lb, h]

theorem seg_eq_of_drop15 (la lb : Chars) (i n : Nat)
    (h : la.drop 15 = lb.drop 15) (hi : 15 ≤ i) :
    seg la i n = seg lb i n := by
  have key : ∀ l : Chars, seg l i n = ((l.drop 15).drop (i - 15)).take n := by
    intro l
    unfold seg
    rw [List.drop_drop]
    congr 2
    omega
  rw [key la, key lb, h]

theorem rowStation_eq_of_bad (cutoff : PyDateTime) (row : CsvRow)
    (h : strptimeYmd row.endD = none) : rowStation cutoff row = none := by
  unfold rowStation
  rw [h]

theorem rowStation_eq_of_dt (cutoff : PyDateTime) (row : CsvRow) (dt : PyDateTime)
    (h : strptimeYmd row.endD = some dt) :
    rowStation cutoff row =
      (if dtLt dt cutoff then none
       else if row.lat = [] ∨ row.lon = [] ∨ row.elev = [] ∨ row.usaf = [] then none
       else some ⟨row.usaf, row.lon, row.lat, row.elev⟩) := by
  unfold rowStation
  simp only [h]

theorem forall_of_option_all (l : Chars) (f : MandGroups → Bool)
    (h : (mandatoryMatch l).all f = true) :
    ∀ g, mandatoryMatch l = some g → f g = true := by
  intro g hg
  rw [hg] at h
  exact h

/-! ### The claims -/

/-- C1: `parse_files` does not parse each listed filename independently: its
loop body passes the whole `filenames` list to `parse_file`, so on
`["fileA"]` — a list holding one perfectly readable file, as the second
conjunct shows — the call raises `TypeError` at `open` instead of returning
the claimed grouping; no grouping (and no append-on-collision) is ever
performed. -/
theorem C1_parse_files_passes_whole_list :
    parse_files fsEx ["fileA"] = ([], Except.error PyErr.typeError)
    ∧ (parse_file fsEx "fileA").2 = Except.ok [readingC7] := ⟨rfl, rfl⟩

/-- C3: for every readable file containing a line on which the mandatory
grammar matches but whose date and time fields do not form a valid calendar
timestamp, `parse_file` fails with the raised `ValueError` (the spec's
`ParseError`), surfaced to the caller; the line is not silently discarded. -/
theorem C3_invalid_datetime_raises (fsys : FileSys) (path : String)
    (lines : List Chars) (l : Chars) (g : MandGroups)
    (hpath : path ≠ "") (hfs : fsys path = some lines) (hmem : l ∈ lines)
    (hg : mandatoryMatch l = some g)
    (hbad : strptimeYmdHM (g.date ++ g.time) = none) :
    (parse_file fsys path).2 = Except.error PyErr.valueError := by
  unfold parse_file
  rw [if_neg hpath, hfs]
  exact processLines_error lines ⟨l, hmem, PyErr.valueError, lineStep_eq_error l g hg hbad⟩

/-- Witness for C3: a file whose single line carries month 13. -/
theorem C3_invalid_datetime_raises_witness :
    fsBad "bad" = some [lineBadDate]
    ∧ mandatoryMatch lineBadDate = some gBad
    ∧ strptimeYmdHM (gBad.date ++ gBad.time) = none
    ∧ (parse_file fsBad "bad").2 = Except.error PyErr.valueError :=
  ⟨rfl, by decide, by decide,
   C3_invalid_datetime_raises fsBad "bad" [lineBadDate] lineBadDate gBad
     (by decide) rfl (List.mem_cons_self _ _) (by decide) (by decide)⟩

/-- C4: for every path on which `open` fails, `parse_file` and
`parse_meteo_stations` each print the I/O failure (the log entry) and return
an empty result instead of raising. -/
theorem C4_io_error_logged_empty (fsys : FileSys) (csys : CsvSys) (path : String)
    (cutoff : PyDateTime) (hpath : path ≠ "") (hfs : fsys path = none)
    (hcs : csys path = none) :
    parse_file fsys path = (["Cannot open file " ++ path], Except.ok [])
    ∧ parse_meteo_stations csys path cutoff
        = (["Cannot open file " ++ path], Except.ok []) := by
  constructor
  · unfold parse_file
    rw [if_neg hpath, hfs]
  · unfold parse_meteo_stations
    rw [if_neg hpath, hcs]

/-- Witness for C4 on a filesystem where every `open` fails. -/
theorem C4_io_error_logged_empty_witness :
    fsNone "nofile" = none ∧ csvNone "nofile" = none
    ∧ parse_file fsNone "nofile" = (["Cannot open file nofile"], Except.ok [])
    ∧ parse_meteo_stations csvNone "nofile" dtCut
        = (["Cannot open file nofile"], Except.ok []) :=
  ⟨rfl, rfl,
   (C4_io_error_logged_empty fsNone csvNone "nofile" dtCut (by decide) rfl rfl).1.trans
     (by rfl),
   (C4_io_error_logged_empty fsNone csvNone "nofile" dtCut (by decide) rfl rfl).2.trans
     (by rfl)⟩

/-- C5: on a readable file all of whose grammar-matching lines carry valid
timestamps, `parse_file` returns, in file order, exactly one reading per
line on which the mandatory grammar matches at the start of the line (the
`filterMap` and the `isSome` equation), and any line shorter than the
105-character mandatory width yields no match and no reading. -/
theorem C5_reading_iff_mandatory_match (fsys : FileSys) (path : String)
    (lines : List Chars) (hpath : path ≠ "") (hfs : fsys path = some lines)
    (hok : ∀ l ∈ lines,
      (mandatoryMatch l).all
        (fun g => (strptimeYmdHM (g.date ++ g.time)).isSome) = true) :
    parse_file fsys path = ([], Except.ok (lines.filterMap lineReading))
    ∧ (∀ l ∈ lines, (lineReading l).isSome = (mandatoryMatch l).isSome)
    ∧ (∀ l : Chars, l.length < 105 →
        mandatoryMatch l = none ∧ lineReading l = none) := by
  refine ⟨?_, ?_, ?_⟩
  · unfold parse_file
    rw [if_neg hpath, hfs]
    exact congrArg (fun r => (([] : List String), r))
      (processLines_of_no_error lines
        (fun l hl => lineStep_no_error l (forall_of_option_all l _ (hok l hl))))
  · intro l hl
    exact lineReading_isSome l (forall_of_option_all l _ (hok l hl))
  · intro l hl
    have hm := mandatoryMatch_of_short l hl
    exact ⟨hm, lineReading_none_of_no_match l hm⟩

/-- Witness for C5 on a file with a short line, a matching line, and a long
non-matching line: only the matching line contributes a reading. -/
theorem C5_reading_iff_mandatory_match_witness :
    fs5 "w5" = some lines5
    ∧ parse_file fs5 "w5" = ([], Except.ok [readingC7])
    ∧ mandatoryMatch shortLine = none ∧ lineReading shortLine = none :=
  ⟨rfl,
   (C5_reading_iff_mandatory_match fs5 "w5" lines5 (by decide) rfl (by decide)).1.trans
     (by rfl),
   (C5_reading_iff_mandatory_match fs5 "w5" lines5 (by decide) rfl
       (by decide)).2.2 shortLine (by decide) |>.1,
   (C5_reading_iff_mandatory_match fs5 "w5" lines5 (by decide) rfl
       (by decide)).2.2 shortLine (by decide) |>.2⟩

/-- C7: parsing the synthetically constructed 105-character line with USAF
id `123456`, WBAN `99999`, date `20161201`, time `1200`, lat `+40000`, lon
`-075000`, elev `+0010`, pressure `10150` and filler in the ignored
positions yields exactly one reading with timestamp 2016-12-01T12:00,
station id `123456`, and pressure raw value `10150`. -/
theorem C7_roundtrip :
    (parse_file fsC7 "obs").2 = Except.ok [readingC7]
    ∧ readingC7.dateTime = ⟨2016, 12, 1, 12, 0⟩
    ∧ readingC7.station.id = "123456".toList
    ∧ readingC7.pressure = "10150".toList := ⟨rfl, rfl, rfl, rfl⟩

/-- C9: if any row of a readable station-history file has an END field that
is not a valid `YYYYMMDD` date, `parse_meteo_stations` raises the
`ValueError` uncaught (only `IOError` is handled), and no stations are
returned from that call. -/
theorem C9_invalid_end_date_raises (csys : CsvSys) (path : String)
    (rows : List CsvRow) (cutoff : PyDateTime) (row : CsvRow)
    (hpath : path ≠ "") (hcs : csys path = some rows) (hmem : row ∈ rows)
    (hbad : strptimeYmd row.endD = none) :
    (parse_meteo_stations csys path cutoff).2 = Except.error PyErr.valueError := by
  unfold parse_meteo_stations
  rw [if_neg hpath, hcs]
  exact stationsLoop_error cutoff rows ⟨row, hmem, hbad⟩

/-- Witness for C9: a history file with one good row and one row whose END
field is `NOPE`. -/
theorem C9_invalid_end_date_raises_witness :
    csv9 "hist9" = some [rowAtCut, rowBadEnd]
    ∧ strptimeYmd rowBadEnd.endD = none
    ∧ (parse_meteo_stations csv9 "hist9" dtCut).2 = Except.error PyErr.valueError :=
  ⟨rfl, by decide,
   C9_invalid_end_date_raises csv9 "hist9" [rowAtCut, rowBadEnd] dtCut rowBadEnd
     (by decide) rfl (List.mem_cons_of_mem _ (List.mem_cons_self _ _)) (by decide)⟩

/-- C10: called with an empty path, `parse_file` and `parse_meteo_stations`
return an empty sequence immediately — for every filesystem, so no file is
opened — with an empty log, so nothing is reported. -/
theorem C10_empty_path_returns_empty (fsys : FileSys) (csys : CsvSys)
    (cutoff : PyDateTime) :
    parse_file fsys "" = ([], Except.ok [])
    ∧ parse_meteo_stations csys "" cutoff = ([], Except.ok []) := by
  constructor
  · unfold parse_file
    rw [if_pos rfl]
  · unfold parse_meteo_stations
    rw [if_pos rfl]

/-- Witness for C10 on filesystems that would serve content even for the
empty path: the content is ignored. -/
theorem C10_empty_path_returns_empty_witness :
    fsEmptyMapped "" = some [lineC7]
    ∧ parse_file fsEmptyMapped "" = ([], Except.ok [])
    ∧ parse_meteo_stations csvEmptyMapped "" dtCut = ([], Except.ok []) :=
  ⟨rfl, (C10_empty_path_returns_empty fsEmptyMapped csvEmptyMapped dtCut).1,
   (C10_empty_path_returns_empty fsEmptyMapped csvEmptyMapped dtCut).2⟩

/-- C2 counterexample: on `lineTwoMA1`, whose tail holds two complete
supplemental sections (`ADD` at 105, a first viable `MA1` at 110 whose
pressure is `11111`, and a second `MA1` whose pressure is `22222`), the
greedy `(.*)?` of `parse_re_add` makes the emitted pressure `22222` — the
value after the *last* viable `MA1` — not `11111`, refuting "only the first
supplemental occurrence is considered". -/
theorem C2_counterexample_last_MA1_wins :
    seg lineTwoMA1 105 3 = ['A', 'D', 'D']
    ∧ addTail lineTwoMA1 110 = some ("11111".toList)
    ∧ lineReading lineTwoMA1 = some ⟨stNorm, dtNoon, "22222".toList⟩
    ∧ ("22222".toList : Chars) ≠ "11111".toList :=
  ⟨rfl, by decide, by decide, by decide⟩

/-- C2 amended: for every line on which the mandatory grammar matches (and
whose timestamp is valid, so a reading is emitted), the emitted pressure is
the leftmost `ADD(.*)?MA1.{6}[0-9]{5}` match's pressure when that search
succeeds with a value other than `99999`, and the mandatory pressure
otherwise; within the leftmost match the greedy `(.*)?` takes the pressure
after the last viable `MA1`, not the first. -/
theorem C2_supplemental_override (line : Chars) (g : MandGroups) (dt : PyDateTime)
    (hm : mandatoryMatch line = some g)
    (hdt : strptimeYmdHM (g.date ++ g.time) = some dt) :
    lineReading line = some ⟨⟨g.usaf, g.lon, g.lat, g.elev⟩, dt,
      match addSearch line with
      | some p => if p ≠ missingSentinel then p else g.airPres
      | none => g.airPres⟩ := by
  unfold lineReading
  rw [lineStep_eq_ok line g dt hm hdt]
  rfl

/-- Witness for C2: the supplemental value `10132` replaces a sentinel
mandatory pressure, and a sentinel supplemental value leaves the mandatory
pressure `10150` unchanged. -/
theorem C2_supplemental_override_witness :
    mandatoryMatch lineAdd1 = some gAdd1
    ∧ strptimeYmdHM (gAdd1.date ++ gAdd1.time) = some dtNoon
    ∧ lineReading lineAdd1 = some ⟨stNorm, dtNoon, "10132".toList⟩
    ∧ lineReading lineAdd2 = some ⟨stNorm, dtNoon, "10150".toList⟩ :=
  ⟨by decide, by decide,
   (C2_supplemental_override lineAdd1 gAdd1 dtNoon (by decide) (by decide)).trans
     (by rfl),
   (C2_supplemental_override lineAdd2 gAdd2 dtNoon (by decide) (by decide)).trans
     (by rfl)⟩

/-- C8 counterexample: `lineW1` and `lineW2` agree outside the WBAN digits
(positions 10-14, digits on both lines) and both match the mandatory
grammar, yet they parse to different readings: on `lineW1` the USAF id
`ADDZMA` and the leading WBAN digit `'1'` together form a supplemental
`ADD`/`MA1` match whose 5-digit pressure group falls inside the date field,
while changing that WBAN digit to `'2'` (`lineW2`) destroys the match. -/
theorem C8_counterexample_wban_influences_pressure :
    lineW1.take 10 = lineW2.take 10
    ∧ lineW1.drop 15 = lineW2.drop 15
    ∧ (seg lineW1 10 5).all Char.isDigit = true
    ∧ (seg lineW2 10 5).all Char.isDigit = true
    ∧ (mandatoryMatch lineW1).isSome = true
    ∧ (mandatoryMatch lineW2).isSome = true
    ∧ lineReading lineW1 = some ⟨⟨"ADDZMA".toList, "-075000".toList,
        "+40000".toList, "+0010".toList⟩, dtNoon, "16120".toList⟩
    ∧ lineReading lineW2 = some ⟨⟨"ADDZMA".toList, "-075000".toList,
        "+40000".toList, "+0010".toList⟩, dtNoon, "10150".toList⟩
    ∧ lineReading lineW1 ≠ lineReading lineW2 :=
  ⟨rfl, rfl, rfl, rfl, by decide, by decide, by decide, by decide, by decide⟩

/-- C8 amended: for two mandatory-matching lines that differ only inside
positions 10-14 (the WBAN field), every retained group — station id,
coordinates, elevation, date, time, mandatory pressure — is equal, and the
emitted readings are equal whenever the supplemental `ADD` search returns
the same result on both lines; the WBAN digits are never copied into the
reading, but they do participate in the supplemental search over the whole
line and can therefore change the emitted pressure. -/
theorem C8_wban_noninterference (la lb : Chars) (ga gb : MandGroups)
    (h10 : la.take 10 = lb.take 10) (h15 : la.drop 15 = lb.drop 15)
    (hga : mandatoryMatch la = some ga) (hgb : mandatoryMatch lb = some gb) :
    (ga.usaf = gb.usaf ∧ ga.date = gb.date ∧ ga.time = gb.time
      ∧ ga.lat = gb.lat ∧ ga.lon = gb.lon ∧ ga.elev = gb.elev
      ∧ ga.airPres = gb.airPres)
    ∧ (addSearch la = addSearch lb → lineReading la = lineReading lb) := by
  have ea := mandatoryMatch_groups la ga hga
  have eb := mandatoryMatch_groups lb gb hgb
  subst ea
  subst eb
  have hu : seg la 4 6 = seg lb 4 6 := seg_eq_of_take10 la lb 4 6 h10 (by omega)
  have hd : seg la 15 8 = seg lb 15 8 := seg_eq_of_drop15 la lb 15 8 h15 (by omega)
  have ht : seg la 23 4 = seg lb 23 4 := seg_eq_of_drop15 la lb 23 4 h15 (by omega)
  have hlat : seg la 28 6 = seg lb 28 6 := seg_eq_of_drop15 la lb 28 6 h15 (by omega)
  have hlon : seg la 34 7 = seg lb 34 7 := seg_eq_of_drop15 la lb 34 7 h15 (by omega)
  have helev : seg la 46 5 = seg lb 46 5 := seg_eq_of_drop15 la lb 46 5 h15 (by omega)
  have hp : seg la 100 5 = seg lb 100 5 := seg_eq_of_drop15 la lb 100 5 h15 (by omega)
  refine ⟨⟨hu, hd, ht, hlat, hlon, helev, hp⟩, ?_⟩
  intro hadd
  unfold lineReading
  cases hdt : strptimeYmdHM (seg la 15 8 ++ seg la 23 4) with
  | none =>
    rw [lineStep_eq_error la _ hga (by exact hdt),
        lineStep_eq_error lb _ hgb (by rw [← hd, ← ht]; exact hdt)]
  | some dt =>
    have hcp : chosenPressure la ⟨seg la 4 6, seg la 10 5, seg la 15 8, seg la 23 4,
        seg la 28 6, seg la 34 7, seg la 46 5, seg la 100 5⟩
        = chosenPressure lb ⟨seg lb 4 6, seg lb 10 5, seg lb 15 8, seg lb 23 4,
        seg lb 28 6, seg lb 34 7, seg lb 46 5, seg lb 100 5⟩ := by
      unfold chosenPressure
      rw [hadd, hp]
    rw [lineStep_eq_ok la _ dt hga (by exact hdt),
        lineStep_eq_ok lb _ dt hgb (by rw [← hd, ← ht]; exact hdt)]
    rw [hcp, hu, hlat, hlon, helev]

/-- Witness for C8: two lines differing only in their WBAN field
(`12345` vs `54321`), with no supplemental section, parse identically. -/
theorem C8_wban_noninterference_witness :
    lwA.take 10 = lwB.take 10 ∧ lwA.drop 15 = lwB.drop 15
    ∧ mandatoryMatch lwA = some gwA ∧ mandatoryMatch lwB = some gwB
    ∧ addSearch lwA = addSearch lwB
    ∧ lineReading lwA = lineReading lwB :=
  ⟨rfl, rfl, by decide, by decide, by decide,
   (C8_wban_noninterference lwA lwB gwA gwB rfl rfl (by decide) (by decide)).2
     (by decide)⟩

/-- C6: on a readable history file all of whose END fields parse under
`YYYYMMDD`, `parse_meteo_stations` emits exactly the rows kept by
`rowStation`: a row is skipped when its END date precedes the cutoff, skipped
when latitude, longitude, elevation or USAF id is empty (for empty LAT even
regardless of the END field), and otherwise — in particular when the END
date equals the cutoff, so that `dtLt` is `false` — a station is emitted. -/
theorem C6_station_history_filter (csys : CsvSys) (path : String)
    (rows : List CsvRow) (cutoff : PyDateTime)
    (hpath : path ≠ "") (hcs : csys path = some rows)
    (hall : ∀ row ∈ rows, (strptimeYmd row.endD).isSome = true) :
    parse_meteo_stations csys path cutoff
      = ([], Except.ok (rows.filterMap (rowStation cutoff)))
    ∧ (∀ row dt, strptimeYmd row.endD = some dt → dtLt dt cutoff = true →
        rowStation cutoff row = none)
    ∧ (∀ row : CsvRow, row.lat = [] → rowStation cutoff row = none)
    ∧ (∀ row dt, strptimeYmd row.endD = some dt →
        (row.lat = [] ∨ row.lon = [] ∨ row.elev = [] ∨ row.usaf = []) →
        rowStation cutoff row = none)
    ∧ (∀ row dt, strptimeYmd row.endD = some dt → dtLt dt cutoff = false →
        ¬(row.lat = [] ∨ row.lon = [] ∨ row.elev = [] ∨ row.usaf = []) →
        rowStation cutoff row = some ⟨row.usaf, row.lon, row.lat, row.elev⟩) := by
  refine ⟨?_, ?_, ?_, ?_, ?_⟩
  · unfold parse_meteo_stations
    rw [if_neg hpath, hcs]
    exact congrArg (fun r => (([] : List String), r))
      (stationsLoop_of_all_parse cutoff rows hall)
  · intro row dt hdt hlt
    rw [rowStation_eq_of_dt cutoff row dt hdt]
    simp [hlt]
  · intro row hlat
    cases hdt : strptimeYmd row.endD with
    | none => exact rowStation_eq_of_bad cutoff row hdt
    | some dt =>
      rw [rowStation_eq_of_dt cutoff row dt hdt]
      cases hlt : dtLt dt cutoff with
      | true => simp [hlt]
      | false => simp [hlt, hlat]
  · intro row dt hdt hany
    rw [rowStation_eq_of_dt cutoff row dt hdt]
    cases hlt : dtLt dt cutoff with
    | true => simp [hlt]
    | false => simp [hlt, if_pos hany]
  · intro row dt hdt hlt hnone
    rw [rowStation_eq_of_dt cutoff row dt hdt]
    simp [hlt, if_neg hnone]

/-- Witness for C6 at cutoff 2016-12-01 on three rows: END `20161130` is
excluded, END `20161201` (equal to the cutoff) is included, and a row with
empty LAT and END `20170101` is excluded. -/
theorem C6_station_history_filter_witness :
    csv6 "hist" = some rows6
    ∧ parse_meteo_stations csv6 "hist" dtCut = ([], Except.ok [stAtCut])
    ∧ rowStation dtCut rowBefore = none
    ∧ rowStation dtCut rowAtCut = some stAtCut
    ∧ rowStation dtCut rowNoLat = none :=
  have h := C6_station_history_filter csv6 "hist" rows6 dtCut (by decide) rfl (by decide)
  ⟨rfl, h.1.trans (by rfl),
   h.2.1 rowBefore ⟨2016, 11, 30, 0, 0⟩ (by decide) (by decide),
   (h.2.2.2.2 rowAtCut ⟨2016, 12, 1, 0, 0⟩ (by decide) (by decide) (by decide)).trans
     (by rfl),
   h.2.2.1 rowNoLat rfl⟩

end DbPy
